import Mathlib

/-!
Verification development for the query interpretation layer of the urban-design dashboard
and filter-application engine, together with the React frontend components that
consume it.  Frontend functions (App.js, QueryInterface, BuildingPopup, Map3D,
Building) are embedded from their JavaScript sources; JavaScript numbers are
modelled as rationals and JavaScript truthiness is modelled explicitly wherever
the source relies on it.  The backend core (fallback parser, validator,
interpreter, filter engine) is not part of the available sources and is
modelled from the specification in the namespace Core.
-/

/-! ## Character and string utilities (modelling JS string primitives) -/

/-- Whitespace test used for tokenising query text. -/
def isWs (c : Char) : Bool :=
  c = ' ' || c = '\t' || c = '\n' || c = '\r'

/-- Split a character list on whitespace, dropping empty fragments. -/
def splitWsAux : List Char → List Char → List (List Char)
  | [], acc => if acc.isEmpty then [] else [acc.reverse]
  | c :: cs, acc =>
    if isWs c then
      (if acc.isEmpty then splitWsAux cs [] else acc.reverse :: splitWsAux cs [])
    else
      splitWsAux cs (c :: acc)

/-- Whitespace-separated tokens of a string (as character lists). -/
def rawTokens (s : String) : List (List Char) :=
  splitWsAux s.data []

/-- Lower-cased whitespace-separated tokens of a string. -/
def lowerTokens (s : String) : List String :=
  (rawTokens s).map (fun cs => String.mk (cs.map Char.toLower))

/-- Model of JavaScript String.prototype.trim. -/
def trimText (s : String) : String :=
  String.mk (((s.data.dropWhile isWs).reverse.dropWhile isWs).reverse)

/-- Whether the character list xs occurs at the head of ys. -/
def leadsWith : List Char → List Char → Bool
  | [], _ => true
  | _ :: _, [] => false
  | a :: as, b :: bs => a = b && leadsWith as bs

/-- Whether the character list xs occurs somewhere inside ys
(model of JavaScript String.prototype.includes). -/
def subIn (xs : List Char) : List Char → Bool
  | [] => xs.isEmpty
  | c :: cs => leadsWith xs (c :: cs) || subIn xs cs

/-- Case-insensitive substring test on strings. -/
def strContainsCI (hay needle : String) : Bool :=
  subIn (needle.data.map Char.toLower) (hay.data.map Char.toLower)

/-- Numeric value of a nonempty all-digit character list. -/
def digitsVal (cs : List Char) : Option Nat :=
  if cs.isEmpty then none
  else if cs.all Char.isDigit then
    some (cs.foldl (fun n c => 10 * n + (c.toNat - 48)) 0)
  else none

/-- Parse a decimal numeral (digits with at most one decimal point) to a
rational; rejects any other token, so non-numeric tokens adjacent to units
yield no match rather than a crash. -/
def parseDecimal (cs : List Char) : Option ℚ :=
  match cs.splitOn '.' with
  | [w] => (digitsVal w).map (fun n => (n : ℚ))
  | [w, f] =>
    match digitsVal w, digitsVal f with
    | some wn, some fn => some ((wn : ℚ) + (fn : ℚ) / ((10 : ℚ) ^ f.length))
    | _, _ => none
  | _ => none

/-- Decimal representation of a natural number. -/
def natText (n : Nat) : String := Nat.repr n

/-- Decimal representation of an integer. -/
def intText (i : Int) : String :=
  if i < 0 then "-" ++ natText i.natAbs else natText i.natAbs

/-- Rendering of a rational as JavaScript would print the number
(integers print without a fractional part). -/
def numText (q : ℚ) : String :=
  if q.den = 1 then intText q.num
  else intText q.num ++ "/" ++ natText q.den

/-- Group the decimal digits of a natural number in threes with commas,
modelling Number.prototype.toLocaleString in the en-CA locale. -/
def chunk3 : List Char → List (List Char)
  | [] => []
  | [a] => [[a]]
  | [a, b] => [[a, b]]
  | a :: b :: c :: rest => [a, b, c] :: chunk3 rest

def groupDigits (n : Nat) : String :=
  String.mk
    (List.intercalate [','] (((chunk3 (natText n).data.reverse).map List.reverse).reverse))

/-! ## JavaScript values and frontend building records -/

/-- A JavaScript value as far as the frontend filters inspect one. -/
inductive JSVal where
  | null
  | undef
  | num (q : ℚ)
  | str (s : String)
  | boolean (b : Bool)
deriving DecidableEq

/-- JavaScript truthiness (NaN is not modelled; rationals have no NaN). -/
def JSVal.truthy : JSVal → Bool
  | .null => false
  | .undef => false
  | .num q => q ≠ 0
  | .str s => s ≠ ""
  | .boolean b => b

/-- Model of a JavaScript typeof-number test. -/
def JSVal.isNumber : JSVal → Bool
  | .num _ => true
  | _ => false

/-- A building record as the frontend receives it from the API. -/
structure FrontBuilding where
  building_id : Nat
  latitude : JSVal
  longitude : JSVal
  height : Option ℚ
  floors : Option ℚ
  assessed_value : Option ℚ
  building_type : Option String
  zoning : Option String
deriving DecidableEq

/-- A filter object as the frontend stores it in activeFilters.  The source
fields attribute and operator are keywords in Lean and are named attr and op
here. -/
structure FrontFilter where
  attr : String
  op : String
  value : String
deriving DecidableEq

/-! ## BuildingPopup.formatHeight -/

/-- Embedding of formatHeight from BuildingPopup.js: null or zero height gives
the unavailable message, otherwise the number followed by a guessed unit label,
writing m exactly when the value exceeds 50 and ft otherwise. -/
def formatHeight (height : Option ℚ) : String :=
  match height with
  | none => "Height data not available"
  | some h =>
    if h = 0 then "Height data not available"
    else numText h ++ " " ++ (if 50 < h then "m" else "ft")

/-! ## QueryInterface.formatFilterText -/

/-- Embedding of the operatorText lookup object in QueryInterface.js as a
key-by-key lookup. -/
def operatorText (s : String) : Option String :=
  if s = ">" then some "greater than"
  else if s = "<" then some "less than"
  else if s = "=" then some "equal to"
  else if s = ">=" then some "greater than or equal to"
  else if s = "<=" then some "less than or equal to"
  else if s = "contains" then some "containing"
  else none

/-- Embedding of formatFilterText from QueryInterface.js: a null filter renders
as the empty string, otherwise attribute, operator phrase (verbatim operator
when unknown) and value joined by spaces. -/
def formatFilterText : Option FrontFilter → String
  | none => ""
  | some f =>
    f.attr ++ " " ++ ((operatorText f.op).getD f.op) ++ " " ++ f.value

/-! ## App.js state and handleQuerySubmit -/

/-- The App component state fields touched by query submission. -/
structure AppState where
  buildings : List FrontBuilding
  filteredBuildings : List FrontBuilding
  activeFilters : Option FrontFilter
  selectedBuilding : Option FrontBuilding
  isLoading : Bool
  error : Option String
deriving DecidableEq

/-- Outcome of the awaited processQuery request: either the promise rejected
(the await threw) or a response arrived carrying a success flag, buildings,
filters and an optional error message. -/
inductive QueryOutcome where
  | thrown (msg : String)
  | response (success : Bool) (buildings : List FrontBuilding)
      (filters : Option FrontFilter) (err : Option String)
deriving DecidableEq

/-- Embedding of handleQuerySubmit from App.js as a state transformer over the
request outcome: empty queries return immediately; success installs the
response buildings and filters and clears the selection; a failed response or a
thrown error records only an error message; loading is cleared in finally. -/
def handleQuerySubmit (s : AppState) (query : String) (o : QueryOutcome) : AppState :=
  if trimText query = "" then s
  else
    let s1 : AppState := { s with isLoading := true, error := none }
    let s2 : AppState :=
      match o with
      | .response true bs fs _ =>
        { s1 with filteredBuildings := bs, activeFilters := fs, selectedBuilding := none }
      | .response false _ _ e =>
        { s1 with error := some (e.getD "Failed to process query") }
      | .thrown msg => { s1 with error := some msg }
    { s2 with isLoading := false }

/-- An outcome counts as a failure when the promise rejected or the response
reported success false. -/
def failureOutcome : QueryOutcome → Bool
  | .thrown _ => true
  | .response ok _ _ _ => !ok

/-! ## QueryInterface props and match statistics -/

/-- The numeric props App.js passes to QueryInterface. -/
structure QueryInterfaceProps where
  buildingCount : Nat
  totalBuildings : Nat
deriving DecidableEq

/-- Embedding of the prop wiring at the QueryInterface call site in App.js:
buildingCount is filteredBuildings.length, totalBuildings is buildings.length. -/
def appQueryInterfaceProps (s : AppState) : QueryInterfaceProps :=
  { buildingCount := s.filteredBuildings.length
    totalBuildings := s.buildings.length }

/-- Text of the Showing span in the StatsContainer of QueryInterface.js. -/
def statsShowingText (p : QueryInterfaceProps) : String :=
  "Showing: " ++ groupDigits p.buildingCount ++ " buildings"

/-- Text of the Total span in the StatsContainer of QueryInterface.js. -/
def statsTotalText (p : QueryInterfaceProps) : String :=
  "Total: " ++ groupDigits p.totalBuildings

/-! ## Map3D and BuildingsContainer -/

/-- Embedding of the validBuildings filter in the Map3D component: latitude and
longitude must be truthy and of number type (the source tests truthiness first,
then typeof). -/
def map3dCoordOk (b : FrontBuilding) : Bool :=
  b.latitude.truthy && b.longitude.truthy && b.latitude.isNumber && b.longitude.isNumber

/-- The building list Map3D passes to BuildingsContainer. -/
def map3dValidBuildings (bs : List FrontBuilding) : List FrontBuilding :=
  bs.filter map3dCoordOk

/-- The coordinate test BuildingsContainer uses to split its input. -/
def containerCoordOk (b : FrontBuilding) : Bool :=
  b.latitude.truthy && b.longitude.truthy

/-- Which branch of BuildingsContainer assigned a building its 3D position. -/
inductive PositionSource where
  | realCoords
  | gridAll
  | gridEdge
deriving DecidableEq

/-- Embedding of the branch structure of the buildingsData useMemo in
BuildingsContainer: empty input yields nothing; if no building has truthy
coordinates every building is grid-placed; otherwise buildings with coordinates
are positioned from them and the remaining ones are appended at grid positions
around the edge.  The numeric position arithmetic is abstracted into the
provenance tag, which is what the reachability claims are about. -/
def buildingsData (buildings : List FrontBuilding) :
    List (FrontBuilding × PositionSource) :=
  if buildings.isEmpty then []
  else
    let validB := buildings.filter containerCoordOk
    let invalidB := buildings.filter (fun b => !b.latitude.truthy || !b.longitude.truthy)
    if validB.isEmpty then buildings.map (fun b => (b, .gridAll))
    else
      validB.map (fun b => (b, .realCoords)) ++ invalidB.map (fun b => (b, .gridEdge))

/-! ## Building.js rendered geometry height -/

/-- Embedding of the fallback chain building.floors ? building.floors * 3.5 : 30
(JavaScript truthiness: zero floors fall through to 30). -/
def floorsFallbackHeight (b : FrontBuilding) : ℚ :=
  match b.floors with
  | some f => if f ≠ 0 then f * (7 / 2 : ℚ) else 30
  | none => 30

/-- Embedding of rawHeight in the Building component:
building.height || (building.floors ? building.floors * 3.5 : 30),
where a zero height is falsy and falls through to the floors chain. -/
def jsRawHeight (b : FrontBuilding) : ℚ :=
  match b.height with
  | some h => if h ≠ 0 then h else floorsFallbackHeight b
  | none => floorsFallbackHeight b

/-- Embedding of the extrusion height Math.max(rawHeight * 0.3, 5) used for the
building geometry. -/
def renderedHeight (b : FrontBuilding) : ℚ :=
  max (jsRawHeight b * (3 / 10 : ℚ)) 5

/-- Height selection as claim C10 words it: the height field whenever the field
is present (non-null), otherwise floors times 3.5 whenever floors is present,
otherwise 30. -/
def claimRawHeight (b : FrontBuilding) : ℚ :=
  match b.height with
  | some h => h
  | none =>
    match b.floors with
    | some f => f * (7 / 2 : ℚ)
    | none => 30

/-- Rendered height as claim C10 words it. -/
def claimRenderedHeight (b : FrontBuilding) : ℚ :=
  max (claimRawHeight b * (3 / 10 : ℚ)) 5

namespace Core

/-! ## Attribute schema and filter data model

Modelled from the spec: the backend core (Attribute Schema, Fallback Parser,
Query Interpreter, Filter Validator, Building Filter Engine) is not among the
available sources; every definition in this namespace follows sections 3, 4
and 7 of the specification. -/

/-- Modelled from the spec: the canonical building attributes of section 3. -/
inductive Attribute where
  | height
  | floors
  | assessed_value
  | building_type
  | zoning
  | land_use
  | construction_year
  | address
deriving DecidableEq

/-- Modelled from the spec: which attributes carry numeric values. -/
def numericAttr : Attribute → Bool
  | .height | .floors | .assessed_value | .construction_year => true
  | _ => false

/-- Modelled from the spec: the comparison/matching operators of section 3. -/
inductive Operator where
  | gt
  | lt
  | ge
  | le
  | eq
  | contains
deriving DecidableEq

/-- The wire symbol of each operator. -/
def opSymbol : Operator → String
  | .gt => ">"
  | .lt => "<"
  | .ge => ">="
  | .le => "<="
  | .eq => "="
  | .contains => "contains"

/-- Every operator, for exhaustiveness statements. -/
def allOperators : List Operator :=
  [.gt, .lt, .ge, .le, .eq, .contains]

/-- Sort direction of a top-n pseudo-filter. -/
inductive Direction where
  | descending
  | ascending
deriving DecidableEq

/-- A filter value: a number or a string. -/
inductive FilterValue where
  | num (q : ℚ)
  | str (s : String)
deriving DecidableEq

/-- Modelled from the spec: FilterCriteria as a closed tagged union, with the
top-n ranking pseudo-filter a distinct variant rather than an overloaded
comparison operator (design note of section 9).  The source fields attribute
and operator are keywords in Lean and are named attr and op. -/
inductive FilterCriteria where
  | cmp (attr : Attribute) (op : Operator) (value : FilterValue)
  | topN (attr : Attribute) (n : Nat) (dir : Direction)
deriving DecidableEq

/-- Modelled from the spec: a Building record with the nullable fields of
section 3 (integers are embedded into the rationals). -/
structure Building where
  height : Option ℚ
  floors : Option ℚ
  assessed_value : Option ℚ
  building_type : Option String
  zoning : Option String
  land_use : Option String
  construction_year : Option ℚ
  address : Option String
deriving DecidableEq

/-- Numeric value of a building under a numeric attribute. -/
def attrNum (b : Building) : Attribute → Option ℚ
  | .height => b.height
  | .floors => b.floors
  | .assessed_value => b.assessed_value
  | .construction_year => b.construction_year
  | _ => none

/-- String value of a building under a string attribute. -/
def attrStr (b : Building) : Attribute → Option String
  | .building_type => b.building_type
  | .zoning => b.zoning
  | .land_use => b.land_use
  | .address => b.address
  | _ => none

/-! ## Errors -/

/-- Modelled from the spec: the validation error taxonomy of section 7. -/
inductive ValidationError where
  | unknownAttribute
  | invalidOperator
  | typeMismatch
  | invalidValue
deriving DecidableEq

/-- Modelled from the spec: external language-model transport failures. -/
inductive TransportFailure where
  | networkError
  | timeout
  | malformedJSON
  | missingFields
deriving DecidableEq

/-- Modelled from the spec: every error the core could conceivably signal;
the propagation policy says only unparseable may cross the boundary. -/
inductive CoreError where
  | unparseable
  | validation (e : ValidationError)
  | transport (e : TransportFailure)
deriving DecidableEq

/-! ## Filter validator (section 4.4) -/

/-- Modelled from the spec: operator/attribute compatibility and value
coercion checks of the Filter Validator. -/
def validate (f : FilterCriteria) : Except ValidationError FilterCriteria :=
  match f with
  | .cmp attr op v =>
    match numericAttr attr, op with
    | true, .contains => .error .typeMismatch
    | true, _ =>
      match v with
      | .num _ => .ok f
      | .str s =>
        match parseDecimal s.data with
        | some q => .ok (.cmp attr op (.num q))
        | none => .error .invalidValue
    | false, .gt | false, .lt | false, .ge | false, .le => .error .typeMismatch
    | false, _ =>
      match v with
      | .str s => if s = "" then .error .invalidValue else .ok f
      | .num _ => .error .invalidValue
  | .topN attr _ _ =>
    if numericAttr attr then .ok f else .error .typeMismatch

/-! ## Fallback parser (section 4.3) -/

/-- Modelled from the spec: a token matching the zoning district code pattern
of one to three letters, a hyphen, and one to three letters or digits,
recognised case-insensitively and reported upper-cased. -/
def matchZoningToken (cs : List Char) : Option String :=
  let u := cs.map Char.toUpper
  match u.splitOn '-' with
  | [a, b] =>
    if a.length ≥ 1 && a.length ≤ 3 && a.all Char.isUpper
        && b.length ≥ 1 && b.length ≤ 3 && b.all (fun c => c.isUpper || c.isDigit) then
      some (String.mk (a ++ '-' :: b))
    else none
  | _ => none

/-- Whether a token is one of the height unit words. -/
def unitIsLength (u : String) : Bool :=
  u = "feet" || u = "ft" || u = "meters" || u = "m"

/-- Modelled from the spec: meters are converted to feet by multiplying by
3.28084 before the numeric value is stored; feet are stored as parsed. -/
def applyUnit (u : String) (q : ℚ) : ℚ :=
  if u = "meters" || u = "m" then q * (328084 / 100000 : ℚ) else q

/-- Parse a number token followed by a unit token into an operator/value pair. -/
def numUnitAt (n u : String) (isGt : Bool) : Option (Operator × ℚ) :=
  if unitIsLength u then
    (parseDecimal n.data).map
      (fun q => ((if isGt then Operator.gt else Operator.lt), applyUnit u q))
  else none

/-- Modelled from the spec: the height-comparison pattern, scanning the token
stream for an over/above/under/below keyword or a two-word greater-than
family keyword followed by a number and a length unit. -/
def heightScan : List String → Option (Operator × ℚ)
  | [] => none
  | t :: rest =>
    let one : Option (Operator × ℚ) :=
      if t = "over" || t = "above" || t = "under" || t = "below" then
        match rest with
        | n :: u :: _ => numUnitAt n u (t = "over" || t = "above")
        | _ => none
      else none
    let two : Option (Operator × ℚ) :=
      match rest with
      | w2 :: n :: u :: _ =>
        if w2 = "than"
            && (t = "greater" || t = "taller" || t = "more" || t = "less" || t = "shorter") then
          numUnitAt n u (t = "greater" || t = "taller" || t = "more")
        else none
      | _ => none
    one <|> two <|> heightScan rest

/-- Modelled from the spec: a monetary amount token with optional dollar sign,
comma separators (stripped before parsing), and k or m magnitude suffix. -/
def parseMoneyTok (s : String) : Option ℚ :=
  let cs := match s.data with
    | '$' :: r => r
    | r => r
  match cs.getLast? with
  | some 'k' => (parseDecimal (cs.dropLast.filter (fun c => c ≠ ','))).map (fun q => q * 1000)
  | some 'm' => (parseDecimal (cs.dropLast.filter (fun c => c ≠ ','))).map (fun q => q * 1000000)
  | _ => parseDecimal (cs.filter (fun c => c ≠ ','))

/-- Modelled from the spec: the monetary-comparison pattern, a money keyword
followed by an amount token. -/
def moneyScan : List String → Option (Operator × ℚ)
  | [] => none
  | t :: rest =>
    let one : Option (Operator × ℚ) :=
      if t = "over" || t = "above" || t = "under" || t = "below" then
        match rest with
        | n :: _ =>
          (parseMoneyTok n).map
            (fun q => ((if t = "over" || t = "above" then Operator.gt else Operator.lt), q))
        | _ => none
      else none
    let two : Option (Operator × ℚ) :=
      match rest with
      | w2 :: n :: _ =>
        if w2 = "than" && (t = "more" || t = "less") then
          (parseMoneyTok n).map
            (fun q => ((if t = "more" then Operator.gt else Operator.lt), q))
        else none
      | _ => none
    one <|> two <|> moneyScan rest

/-- Modelled from the spec: the configurable default N of superlative
top-n filters. -/
def defaultTopN : Nat := 10

/-- Modelled from the spec: superlative keywords, in the listed order. -/
def superlativeScan (norm : String) : Option FilterCriteria :=
  if strContainsCI norm "tallest" || strContainsCI norm "highest" then
    some (.topN .height defaultTopN .descending)
  else if strContainsCI norm "most expensive" || strContainsCI norm "highest value" then
    some (.topN .assessed_value defaultTopN .descending)
  else if strContainsCI norm "cheapest" || strContainsCI norm "least expensive" then
    some (.topN .assessed_value defaultTopN .ascending)
  else none

/-- Modelled from the spec: the building-type keyword membership test. -/
def typeScan : List String → Option String
  | [] => none
  | t :: rest =>
    if t = "commercial" || t = "residential" || t = "industrial" then some t
    else if t = "mixed" then
      match rest with
      | "use" :: _ => some "mixed use"
      | _ => some "mixed"
    else typeScan rest

/-- Modelled from the spec: the floor-count pattern. -/
def floorsScan : List String → Option (Operator × ℚ)
  | [] => none
  | t :: rest =>
    let one : Option (Operator × ℚ) :=
      if t = "over" || t = "under" then
        match rest with
        | n :: f :: _ =>
          if f = "floors" then
            (parseDecimal n.data).map
              (fun q => ((if t = "over" then Operator.gt else Operator.lt), q))
          else none
        | _ => none
      else none
    let two : Option (Operator × ℚ) :=
      match rest with
      | w2 :: n :: f :: _ =>
        if w2 = "than" && (t = "more" || t = "less") && f = "floors" then
          (parseDecimal n.data).map
            (fun q => ((if t = "more" then Operator.gt else Operator.lt), q))
        else none
      | _ => none
    one <|> two <|> floorsScan rest

/-- Modelled from the spec: the construction-year pattern, built or
constructed, then before or after, then a four-digit year. -/
def yearScan : List String → Option (Operator × ℚ)
  | [] => none
  | t :: rest =>
    (match rest with
     | d :: y :: _ =>
       if (t = "built" || t = "constructed") && (d = "before" || d = "after") then
         match digitsVal y.data with
         | some n =>
           if y.data.length = 4 then
             some ((if d = "after" then Operator.gt else Operator.lt), (n : ℚ))
           else none
         | none => none
       else none
     | _ => none)
    <|> yearScan rest

/-- Modelled from the spec: parseFallback, applying the recognised patterns in
priority order (zoning code, height, money, superlative, building type,
floors, construction year), first match wins, null when nothing matches. -/
def parseFallback (raw : String) : Option FilterCriteria :=
  let toks := lowerTokens raw
  let norm := String.mk (List.intercalate [' '] ((rawTokens raw).map (List.map Char.toLower)))
  ((rawTokens raw).findSome? matchZoningToken).map
      (fun code => FilterCriteria.cmp .zoning .contains (.str code))
  <|> (heightScan toks).map (fun p => FilterCriteria.cmp .height p.1 (.num p.2))
  <|> (moneyScan toks).map (fun p => FilterCriteria.cmp .assessed_value p.1 (.num p.2))
  <|> superlativeScan norm
  <|> (typeScan toks).map (fun t => FilterCriteria.cmp .building_type .eq (.str t))
  <|> (floorsScan toks).map (fun p => FilterCriteria.cmp .floors p.1 (.num p.2))
  <|> (yearScan toks).map (fun p => FilterCriteria.cmp .construction_year p.1 (.num p.2))

/-! ## Query interpreter (section 4.2) -/

/-- Modelled from the spec: a candidate filter object decoded from a
language-model response, with loosely-typed string fields. -/
structure RawCandidate where
  attr : String
  op : String
  value : FilterValue
deriving DecidableEq

/-- Modelled from the spec: the Attribute Schema synonym table of section 4.1,
extended with the canonical names, plus the zoning district code pattern. -/
def resolveAttribute (s : String) : Option Attribute :=
  let t := String.mk (s.data.map Char.toLower)
  if t = "height" || t = "tall" || t = "feet" || t = "meters" then some .height
  else if t = "assessed_value" || t = "worth" || t = "value" || t = "cost"
      || t = "price" || t = "$" then some .assessed_value
  else if t = "building_type" || t = "type" || t = "commercial" || t = "residential"
      || t = "industrial" || t = "mixed" then some .building_type
  else if t = "zoning" || t = "zoned" || (matchZoningToken s.data).isSome then some .zoning
  else if t = "floors" || t = "floor" || t = "storey" || t = "story" then some .floors
  else if t = "construction_year" || t = "built" || t = "year" || t = "constructed" then
    some .construction_year
  else if t = "land_use" then some .land_use
  else if t = "address" then some .address
  else none

/-- Operator strings accepted from the language-model path: the six operator
symbols, or the top-n pseudo-filter marker. -/
inductive OpKind where
  | cmpOp (op : Operator)
  | topOp
deriving DecidableEq

def parseOpString : String → Option OpKind
  | ">" => some (.cmpOp .gt)
  | "<" => some (.cmpOp .lt)
  | ">=" => some (.cmpOp .ge)
  | "<=" => some (.cmpOp .le)
  | "=" => some (.cmpOp .eq)
  | "contains" => some (.cmpOp .contains)
  | "top-n" => some .topOp
  | _ => none

/-- Modelled from the spec: validation of a raw language-model candidate, in
the order of section 4.4: attribute resolution, operator membership,
compatibility and value coercion. -/
def validateRaw (c : RawCandidate) : Except ValidationError FilterCriteria :=
  match resolveAttribute c.attr with
  | none => .error .unknownAttribute
  | some attr =>
    match parseOpString c.op with
    | none => .error .invalidOperator
    | some (.cmpOp op) => validate (.cmp attr op c.value)
    | some .topOp =>
      match c.value with
      | .num q =>
        if q.den = 1 && 0 < q.num then validate (.topN attr q.num.toNat .descending)
        else .error .invalidValue
      | .str _ => .error .invalidValue

/-- Modelled from the spec: outcome of the external language-model call, as
observed by the interpreter: a transport failure, or a decoded candidate. -/
inductive LLMOutcome where
  | transportFailure (e : TransportFailure)
  | candidate (c : RawCandidate)
deriving DecidableEq

/-- Modelled from the spec: the fallback half of interpret, parsing the raw
text with the Fallback Parser and validating its output too; an unparseable
text or an invalid fallback result surfaces only Unparseable. -/
def fallbackInterpret (raw : String) : Except CoreError FilterCriteria :=
  match parseFallback raw with
  | none => .error .unparseable
  | some c =>
    match validate c with
    | .ok f => .ok f
    | .error _ => .error .unparseable

/-- Modelled from the spec: interpret, with the language-model call outcome an
explicit argument (none when no endpoint is configured).  All transport
failures and an invalid candidate fall back to the Fallback Parser on the same
raw text. -/
def interpret (raw : String) (llm : Option LLMOutcome) : Except CoreError FilterCriteria :=
  match llm with
  | none => fallbackInterpret raw
  | some (.transportFailure _) => fallbackInterpret raw
  | some (.candidate c) =>
    match validateRaw c with
    | .ok f => .ok f
    | .error _ => fallbackInterpret raw

/-- Whether the language-model path failed at one of its steps: a transport
failure (network error, timeout, malformed or incomplete JSON), or a candidate
that the Filter Validator rejects. -/
def llmFailed : Option LLMOutcome → Bool
  | none => false
  | some (.transportFailure _) => true
  | some (.candidate c) =>
    match validateRaw c with
    | .ok _ => false
    | .error _ => true

/-! ## Building filter engine (section 4.5) -/

/-- Case-insensitive string equality. -/
def strEqCI (a b : String) : Bool :=
  a.data.map Char.toLower == b.data.map Char.toLower

/-- Modelled from the spec: the per-operator matching semantics of section
4.5.  A null attribute value fails every comparison and every equality or
containment test. -/
def matchesCmp (b : Building) (attr : Attribute) (op : Operator) (v : FilterValue) : Bool :=
  match op with
  | .gt =>
    match attrNum b attr, v with
    | some x, .num y => decide (y < x)
    | _, _ => false
  | .lt =>
    match attrNum b attr, v with
    | some x, .num y => decide (x < y)
    | _, _ => false
  | .ge =>
    match attrNum b attr, v with
    | some x, .num y => decide (y ≤ x)
    | _, _ => false
  | .le =>
    match attrNum b attr, v with
    | some x, .num y => decide (x ≤ y)
    | _, _ => false
  | .eq =>
    if numericAttr attr then
      match attrNum b attr, v with
      | some x, .num y => decide (x = y)
      | _, _ => false
    else
      match attrStr b attr, v with
      | some s, .str t => strEqCI s t
      | _, _ => false
  | .contains =>
    match attrStr b attr, v with
    | some s, .str t => strContainsCI s t
    | _, _ => false

/-- Pulled-back order on buildings used for top-n ranking. -/
def keyOrder (k : α → ℚ) (a b : α) : Prop := k a ≤ k b

instance (k : α → ℚ) : DecidableRel (keyOrder k) :=
  fun a b => inferInstanceAs (Decidable (k a ≤ k b))

instance (k : α → ℚ) : IsTotal α (keyOrder k) :=
  ⟨fun a b => le_total (k a) (k b)⟩

instance (k : α → ℚ) : IsTrans α (keyOrder k) :=
  ⟨fun _ _ _ hab hbc => le_trans hab hbc⟩

/-- Ranking key for top-n: descending order sorts by negated attribute value. -/
def rankKey (attr : Attribute) (dir : Direction) (b : Building) : ℚ :=
  match dir with
  | .descending => -((attrNum b attr).getD 0)
  | .ascending => (attrNum b attr).getD 0

/-- Modelled from the spec: the Building Filter Engine.  A comparison filter
keeps the matching subsequence in order; a top-n filter drops the buildings
with a null target attribute, sorts the remainder by the attribute
(descending by default, ascending when requested) and truncates to N. -/
def apply (bs : List Building) (f : FilterCriteria) : List Building :=
  match f with
  | .cmp attr op v => bs.filter (fun b => matchesCmp b attr op v)
  | .topN attr n dir =>
    (List.insertionSort (keyOrder (rankKey attr dir))
      (bs.filter (fun b => (attrNum b attr).isSome))).take n

/-- Match statistics returned alongside the filtered subsequence. -/
def applyStats (bs : List Building) (f : FilterCriteria) : Nat × Nat :=
  ((apply bs f).length, bs.length)

end Core

/-- Decidable equality for Except results, used to evaluate interpreter runs
on concrete inputs. -/
instance {ε α : Type} [DecidableEq ε] [DecidableEq α] : DecidableEq (Except ε α) :=
  fun x y =>
    match x, y with
    | .ok a, .ok b =>
      if h : a = b then isTrue (by rw [h]) else isFalse (by simp [h])
    | .error a, .error b =>
      if h : a = b then isTrue (by rw [h]) else isFalse (by simp [h])
    | .ok _, .error _ => isFalse (by simp)
    | .error _, .ok _ => isFalse (by simp)

/-! ## Helper lemmas -/

/-- Any error surfaced by the fallback half of interpret is Unparseable. -/
theorem fallbackInterpret_error_eq (raw : String) (e : Core.CoreError)
    (h : Core.fallbackInterpret raw = .error e) : e = Core.CoreError.unparseable := by
  unfold Core.fallbackInterpret at h
  split at h
  · exact (Except.error.inj h).symm
  · split at h
    · exact absurd h (by simp)
    · exact (Except.error.inj h).symm

/-- Every member of a top-n result has a non-null target attribute. -/
theorem mem_topN_attr_isSome (bs : List Core.Building) (attr : Core.Attribute)
    (n : Nat) (dir : Core.Direction) (b : Core.Building)
    (hb : b ∈ Core.apply bs (.topN attr n dir)) :
    (Core.attrNum b attr).isSome = true := by
  unfold Core.apply at hb
  have h1 := List.mem_of_mem_take hb
  rw [List.mem_insertionSort] at h1
  exact (List.mem_filter.mp h1).2

/-! ## Claim theorems -/

/-- C1: for every filter whose operator is a numeric comparison or numeric
equality, and for every top-n filter, a building whose target attribute is
null never appears in the filtered result nor in the top-n ranked output. -/
theorem C1_null_value_never_matches (bs : List Core.Building) (b : Core.Building)
    (attr : Core.Attribute) (op : Core.Operator) (v : Core.FilterValue)
    (n : Nat) (dir : Core.Direction)
    (hnum : Core.numericAttr attr = true)
    (hnull : Core.attrNum b attr = none)
    (hop : op ∈ [Core.Operator.gt, Core.Operator.lt, Core.Operator.ge,
      Core.Operator.le, Core.Operator.eq]) :
    b ∉ Core.apply bs (.cmp attr op v) ∧ b ∉ Core.apply bs (.topN attr n dir) := by
  constructor
  · intro hmem
    unfold Core.apply at hmem
    have hm := (List.mem_filter.mp hmem).2
    cases op <;> simp [Core.matchesCmp, hnull, hnum] at hm
    · simp at hop
  · intro hmem
    have := mem_topN_attr_isSome bs attr n dir b hmem
    rw [hnull] at this
    exact absurd this (by simp)

/-- Witness for C1 at a concrete building with null height against a height
comparison filter and a top-n filter. -/
theorem C1_null_value_never_matches_witness :
    Core.numericAttr .height = true ∧
    Core.attrNum ⟨none, some 3, none, none, none, none, none, none⟩ .height = none ∧
    (⟨none, some 3, none, none, none, none, none, none⟩ : Core.Building)
      ∉ Core.apply [⟨none, some 3, none, none, none, none, none, none⟩,
                    ⟨some 120, none, none, none, none, none, none, none⟩]
        (.cmp .height .gt (.num 100)) ∧
    (⟨none, some 3, none, none, none, none, none, none⟩ : Core.Building)
      ∉ Core.apply [⟨none, some 3, none, none, none, none, none, none⟩,
                    ⟨some 120, none, none, none, none, none, none, none⟩]
        (.topN .height 5 .descending) := by
  refine ⟨by decide, by decide, ?_, ?_⟩
  · exact (C1_null_value_never_matches _ _ _ _ _ 5 .descending
      (by decide) (by decide) (by decide)).1
  · exact (C1_null_value_never_matches _ _ .height .gt (.num 100) _ _
      (by decide) (by decide) (by decide)).2

/-- C4: the height-comparison pattern of the fallback parser sends the text
"buildings over 100 feet" to the filter height > 100, and interpret returns
that filter when the language-model call fails. -/
theorem C4_over_100_feet :
    Core.parseFallback "buildings over 100 feet"
      = some (.cmp .height .gt (.num 100)) ∧
    Core.interpret "buildings over 100 feet"
        (some (.transportFailure .networkError))
      = .ok (.cmp .height .gt (.num 100)) := by
  constructor <;> decide

/-- C2: whenever the language-model path fails at any step, interpret runs the
Fallback Parser on the same raw text and validates its output; any error
interpret surfaces is Unparseable, and on a failed language-model path it is
surfaced exactly when the fallback result is also invalid. -/
theorem C2_fallback_policy (raw : String) (o : Option Core.LLMOutcome) :
    (Core.llmFailed o = true → Core.interpret raw o = Core.fallbackInterpret raw) ∧
    (∀ e, Core.interpret raw o = .error e → e = Core.CoreError.unparseable) ∧
    (Core.llmFailed o = true →
      (Core.interpret raw o = .error Core.CoreError.unparseable ↔
        Core.fallbackInterpret raw = .error Core.CoreError.unparseable)) := by
  have hfail : Core.llmFailed o = true → Core.interpret raw o = Core.fallbackInterpret raw := by
    intro hl
    cases o with
    | none => simp [Core.interpret]
    | some l =>
      cases l with
      | transportFailure e => simp [Core.interpret]
      | candidate c =>
        cases hv : Core.validateRaw c with
        | ok f => simp [Core.llmFailed, hv] at hl
        | error ve => simp [Core.interpret, hv]
  have hok : ∀ e, Core.interpret raw o = .error e → e = Core.CoreError.unparseable := by
    intro e he
    cases o with
    | none =>
      simp only [Core.interpret] at he
      exact fallbackInterpret_error_eq raw e he
    | some l =>
      cases l with
      | transportFailure te =>
        simp only [Core.interpret] at he
        exact fallbackInterpret_error_eq raw e he
      | candidate c =>
        cases hv : Core.validateRaw c with
        | ok f => simp [Core.interpret, hv] at he
        | error ve =>
          simp only [Core.interpret, hv] at he
          exact fallbackInterpret_error_eq raw e he
  refine ⟨hfail, hok, ?_⟩
  · intro hl
    rw [hfail hl]

/-- Witness for C2 at the unparseable text of scenario 5 with a timed-out
language-model call. -/
theorem C2_fallback_policy_witness :
    Core.llmFailed (some (.transportFailure .timeout)) = true ∧
    Core.interpret "purple buildings" (some (.transportFailure .timeout))
      = .error Core.CoreError.unparseable := by
  refine ⟨by decide, ?_⟩
  exact ((C2_fallback_policy "purple buildings"
      (some (.transportFailure .timeout))).2.2 (by decide)).mpr (by decide)

/-- C3: applying a non-top-n filter twice equals applying it once; a top-n
filter whose N is at least the size of the first result is a no-op on its own
output. -/
theorem C3_idempotent (bs : List Core.Building) :
    (∀ attr op v, Core.apply (Core.apply bs (.cmp attr op v)) (.cmp attr op v)
        = Core.apply bs (.cmp attr op v)) ∧
    (∀ attr n dir, (Core.apply bs (.topN attr n dir)).length ≤ n →
      Core.apply (Core.apply bs (.topN attr n dir)) (.topN attr n dir)
        = Core.apply bs (.topN attr n dir)) := by
  constructor
  · intro attr op v
    simp only [Core.apply, List.filter_filter, Bool.and_self]
  · intro attr n dir hlen
    have hall : ∀ b ∈ Core.apply bs (.topN attr n dir),
        ((Core.attrNum b attr).isSome = true) :=
      fun b hb => mem_topN_attr_isSome bs attr n dir b hb
    have hsorted : List.Sorted (Core.keyOrder (Core.rankKey attr dir))
        (Core.apply bs (.topN attr n dir)) := by
      unfold Core.apply
      exact List.Pairwise.sublist (List.take_sublist n _)
        (List.sorted_insertionSort _ _)
    conv_lhs => rw [Core.apply]
    rw [List.filter_eq_self.mpr hall, List.Sorted.insertionSort_eq hsorted,
      List.take_of_length_le hlen]

/-- Witness for C3 at a concrete two-building collection for both a comparison
filter and a top-n filter. -/
theorem C3_idempotent_witness :
    (Core.apply (Core.apply [⟨some 120, none, none, none, none, none, none, none⟩,
        ⟨some 80, none, none, none, none, none, none, none⟩]
        (.cmp .height .gt (.num 100))) (.cmp .height .gt (.num 100))
      = Core.apply [⟨some 120, none, none, none, none, none, none, none⟩,
        ⟨some 80, none, none, none, none, none, none, none⟩]
        (.cmp .height .gt (.num 100))) ∧
    ((Core.apply [⟨some 120, none, none, none, none, none, none, none⟩,
        ⟨some 80, none, none, none, none, none, none, none⟩]
        (.topN .height 5 .descending)).length ≤ 5) ∧
    (Core.apply (Core.apply [⟨some 120, none, none, none, none, none, none, none⟩,
        ⟨some 80, none, none, none, none, none, none, none⟩]
        (.topN .height 5 .descending)) (.topN .height 5 .descending)
      = Core.apply [⟨some 120, none, none, none, none, none, none, none⟩,
        ⟨some 80, none, none, none, none, none, none, none⟩]
        (.topN .height 5 .descending)) := by
  refine ⟨(C3_idempotent _).1 .height .gt (.num 100), by decide, ?_⟩
  exact (C3_idempotent _).2 .height 5 .descending (by decide)

/-- C5: when the query request throws or the response reports failure,
handleQuerySubmit returns normally, keeps filteredBuildings, activeFilters,
the building list and the selection unchanged, and only the error message and
loading flag can differ from the pre-submission state. -/
theorem C5_failure_preserves_state (s : AppState) (q : String) (o : QueryOutcome)
    (h : failureOutcome o = true) :
    handleQuerySubmit s q o
      = { s with error := (handleQuerySubmit s q o).error,
                 isLoading := (handleQuerySubmit s q o).isLoading } ∧
    (handleQuerySubmit s q o).filteredBuildings = s.filteredBuildings ∧
    (handleQuerySubmit s q o).activeFilters = s.activeFilters ∧
    (handleQuerySubmit s q o).selectedBuilding = s.selectedBuilding ∧
    (handleQuerySubmit s q o).buildings = s.buildings := by
  cases o with
  | thrown msg =>
    by_cases hq : trimText q = "" <;> simp [handleQuerySubmit, hq]
  | response ok bs fs e =>
    have hok : ok = false := by
      cases ok
      · rfl
      · exact absurd h (by simp [failureOutcome])
    subst hok
    by_cases hq : trimText q = "" <;> simp [handleQuerySubmit, hq]

/-- Witness for C5 at a concrete state with a thrown request and a failed
response. -/
theorem C5_failure_preserves_state_witness :
    failureOutcome (QueryOutcome.thrown "Network Error") = true ∧
    failureOutcome (QueryOutcome.response false [] none (some "bad query")) = true ∧
    (handleQuerySubmit
        ⟨[⟨1, .num 51, .num (-114), some 10, none, none, none, none⟩],
         [⟨1, .num 51, .num (-114), some 10, none, none, none, none⟩],
         some ⟨"height", ">", "100"⟩, none, false, none⟩
        "some query" (QueryOutcome.thrown "Network Error")).filteredBuildings
      = [⟨1, .num 51, .num (-114), some 10, none, none, none, none⟩] ∧
    (handleQuerySubmit
        ⟨[⟨1, .num 51, .num (-114), some 10, none, none, none, none⟩],
         [⟨1, .num 51, .num (-114), some 10, none, none, none, none⟩],
         some ⟨"height", ">", "100"⟩, none, false, none⟩
        "some query" (QueryOutcome.response false [] none (some "bad query"))).activeFilters
      = some ⟨"height", ">", "100"⟩ := by
  refine ⟨by decide, by decide, ?_, ?_⟩
  · exact (C5_failure_preserves_state _ "some query" _ (by decide)).2.1
  · exact (C5_failure_preserves_state _ "some query" _ (by decide)).2.2.1

/-- C6 counterexample: a 100-foot-tall building is rendered by formatHeight
with an m label, not a feet label. -/
theorem C6_counterexample :
    formatHeight (some 100) = "100 m" ∧ formatHeight (some 100) ≠ "100 ft" := by
  constructor <;> decide

/-- C6 amended: formatHeight renders a non-null, non-zero height as the
numeric value followed by a unit label, but the label is ft only when the
value is at most 50; values above 50 are labelled m. -/
theorem C6_amended (h : ℚ) (hne : h ≠ 0) :
    (h ≤ 50 → formatHeight (some h) = numText h ++ " ft") ∧
    (50 < h → formatHeight (some h) = numText h ++ " m") := by
  constructor <;> intro hh
  · simp only [formatHeight, if_neg hne, if_neg (not_lt.mpr hh)]
    rw [String.append_assoc]
    congr 1
  · simp only [formatHeight, if_neg hne, if_pos hh]
    rw [String.append_assoc]
    congr 1

/-- Witness for C6 amended at heights 30 and 100. -/
theorem C6_amended_witness :
    (30 : ℚ) ≠ 0 ∧ (100 : ℚ) ≠ 0 ∧
    formatHeight (some 30) = numText 30 ++ " ft" ∧
    formatHeight (some 100) = numText 100 ++ " m" := by
  refine ⟨by decide, by decide, ?_, ?_⟩
  · exact (C6_amended 30 (by decide)).1 (by decide)
  · exact (C6_amended 100 (by decide)).2 (by decide)

/-- C7: the operator set of FilterCriteria is exactly the six symbols >, <,
>=, <=, = and contains; formatFilterText renders a null filter as the empty
string and otherwise renders attribute, operator phrase and value, where the
six known operators map to their English phrases and any other operator
string is rendered verbatim. -/
theorem C7_operator_set_and_rendering :
    (∀ op : Core.Operator, Core.opSymbol op ∈ [">", "<", ">=", "<=", "=", "contains"]) ∧
    (∀ s : String, s ∈ [">", "<", ">=", "<=", "=", "contains"] →
      ∃ op : Core.Operator, Core.opSymbol op = s) ∧
    formatFilterText none = "" ∧
    operatorText ">" = some "greater than" ∧
    operatorText "<" = some "less than" ∧
    operatorText "=" = some "equal to" ∧
    operatorText ">=" = some "greater than or equal to" ∧
    operatorText "<=" = some "less than or equal to" ∧
    operatorText "contains" = some "containing" ∧
    (∀ s : String, s ∉ [">", "<", ">=", "<=", "=", "contains"] → operatorText s = none) ∧
    (∀ f : FrontFilter, formatFilterText (some f)
      = f.attr ++ " " ++ ((operatorText f.op).getD f.op) ++ " " ++ f.value) := by
  refine ⟨?_, ?_, rfl, by decide, by decide, by decide, by decide, by decide, by decide,
    ?_, fun f => rfl⟩
  · intro op; cases op <;> simp [Core.opSymbol]
  · intro s hs
    simp only [List.mem_cons, List.not_mem_nil, or_false] at hs
    rcases hs with rfl | rfl | rfl | rfl | rfl | rfl
    · exact ⟨.gt, rfl⟩
    · exact ⟨.lt, rfl⟩
    · exact ⟨.ge, rfl⟩
    · exact ⟨.le, rfl⟩
    · exact ⟨.eq, rfl⟩
    · exact ⟨.contains, rfl⟩
  · intro s hs
    simp only [List.mem_cons, List.not_mem_nil, or_false, not_or] at hs
    obtain ⟨h1, h2, h3, h4, h5, h6⟩ := hs
    simp [operatorText, h1, h2, h3, h4, h5, h6]

/-- Witness for C7: a concrete known operator renders as its phrase and a
concrete unknown operator renders verbatim. -/
theorem C7_operator_set_and_rendering_witness :
    formatFilterText (some ⟨"height", ">", "100"⟩)
      = "height" ++ " " ++ "greater than" ++ " " ++ "100" ∧
    operatorText "top-n" = none ∧
    formatFilterText (some ⟨"height", "top-n", "5"⟩)
      = "height" ++ " " ++ "top-n" ++ " " ++ "5" := by
  have h := C7_operator_set_and_rendering
  refine ⟨?_, h.2.2.2.2.2.2.2.2.2.1 "top-n" (by decide), ?_⟩
  · have := h.2.2.2.2.2.2.2.2.2.2 ⟨"height", ">", "100"⟩
    simpa [operatorText] using this
  · have := h.2.2.2.2.2.2.2.2.2.2 ⟨"height", "top-n", "5"⟩
    simpa [operatorText] using this

/-- C8: the Showing statistic displayed by QueryInterface equals the length of
the filtered building list and the Total statistic equals the length of the
full building collection, for every application state. -/
theorem C8_stats_equal_lengths (s : AppState) :
    (appQueryInterfaceProps s).buildingCount = s.filteredBuildings.length ∧
    (appQueryInterfaceProps s).totalBuildings = s.buildings.length ∧
    statsShowingText (appQueryInterfaceProps s)
      = "Showing: " ++ groupDigits s.filteredBuildings.length ++ " buildings" ∧
    statsTotalText (appQueryInterfaceProps s)
      = "Total: " ++ groupDigits s.buildings.length := by
  exact ⟨rfl, rfl, rfl, rfl⟩

/-- When every input building passes the container coordinate test, the
buildingsData computation positions every building from its coordinates. -/
theorem buildingsData_all_real (l : List FrontBuilding)
    (h : ∀ b ∈ l, containerCoordOk b = true) :
    buildingsData l = l.map (fun b => (b, PositionSource.realCoords)) := by
  cases l with
  | nil => rfl
  | cons a t =>
    have hfe : (a :: t).filter containerCoordOk = a :: t := List.filter_eq_self.mpr h
    have hinv : (a :: t).filter (fun b => !b.latitude.truthy || !b.longitude.truthy) = [] := by
      rw [List.filter_eq_nil_iff]
      intro b hb
      have hb2 := h b hb
      simp only [containerCoordOk, Bool.and_eq_true] at hb2
      simp [hb2.1, hb2.2]
    simp [buildingsData, hfe, hinv]

/-- C9: every building Map3D passes to BuildingsContainer has truthy numeric
coordinates, so the invalid-coordinate list of the container is empty, its
grid-placement branch never fires, and every rendered building is positioned
from its real coordinates, in order. -/
theorem C9_grid_branch_unreachable (bs : List FrontBuilding) :
    ((map3dValidBuildings bs).filter
        (fun b => !b.latitude.truthy || !b.longitude.truthy)) = [] ∧
    (∀ b ∈ map3dValidBuildings bs,
        b.latitude.isNumber = true ∧ b.longitude.isNumber = true) ∧
    (∀ p ∈ buildingsData (map3dValidBuildings bs), p.2 = PositionSource.realCoords) ∧
    (buildingsData (map3dValidBuildings bs)).map Prod.fst = map3dValidBuildings bs := by
  have hok : ∀ b ∈ map3dValidBuildings bs, map3dCoordOk b = true :=
    fun b hb => (List.mem_filter.mp hb).2
  have hsplit : ∀ b ∈ map3dValidBuildings bs,
      b.latitude.truthy = true ∧ b.longitude.truthy = true ∧
      b.latitude.isNumber = true ∧ b.longitude.isNumber = true := by
    intro b hb
    have h := hok b hb
    simp only [map3dCoordOk, Bool.and_eq_true] at h
    exact ⟨h.1.1.1, h.1.1.2, h.1.2, h.2⟩
  have hcc : ∀ b ∈ map3dValidBuildings bs, containerCoordOk b = true := by
    intro b hb
    obtain ⟨h1, h2, -, -⟩ := hsplit b hb
    simp [containerCoordOk, h1, h2]
  have hreal := buildingsData_all_real (map3dValidBuildings bs) hcc
  refine ⟨?_, fun b hb => ⟨(hsplit b hb).2.2.1, (hsplit b hb).2.2.2⟩, ?_, ?_⟩
  · rw [List.filter_eq_nil_iff]
    intro b hb
    obtain ⟨h1, h2, -, -⟩ := hsplit b hb
    simp [h1, h2]
  · intro p hp
    rw [hreal] at hp
    obtain ⟨b, -, rfl⟩ := List.mem_map.mp hp
    rfl
  · rw [hreal, List.map_map]
    have hid : (Prod.fst ∘ fun b : FrontBuilding => (b, PositionSource.realCoords)) = id := rfl
    rw [hid, List.map_id]

/-- Witness for C9 at a concrete pair of buildings, one with numeric
coordinates and one with null coordinates. -/
theorem C9_grid_branch_unreachable_witness :
    map3dValidBuildings
        [⟨1, .num 51, .num (-114), some 10, none, none, none, none⟩,
         ⟨2, .null, .num (-114), some 20, none, none, none, none⟩]
      = [⟨1, .num 51, .num (-114), some 10, none, none, none, none⟩] ∧
    (⟨1, .num 51, .num (-114), some 10, none, none, none, none⟩ : FrontBuilding).latitude.isNumber
      = true ∧
    ((⟨1, .num 51, .num (-114), some 10, none, none, none, none⟩ : FrontBuilding),
        PositionSource.realCoords).2 = PositionSource.realCoords := by
  refine ⟨by decide, ?_, ?_⟩
  · exact ((C9_grid_branch_unreachable
      [⟨1, .num 51, .num (-114), some 10, none, none, none, none⟩,
       ⟨2, .null, .num (-114), some 20, none, none, none, none⟩]).2.1
      ⟨1, .num 51, .num (-114), some 10, none, none, none, none⟩ (by decide)).1
  · exact (C9_grid_branch_unreachable
      [⟨1, .num 51, .num (-114), some 10, none, none, none, none⟩,
       ⟨2, .null, .num (-114), some 20, none, none, none, none⟩]).2.2.1
      (⟨1, .num 51, .num (-114), some 10, none, none, none, none⟩, PositionSource.realCoords)
      (by decide)

/-- C10 counterexample: a building with a present but zero height and ten
floors renders at height 21/2 through the truthiness fallback, while the
claimed formula (height whenever present) yields 5. -/
theorem C10_counterexample :
    renderedHeight ⟨1, .null, .null, some 0, some 10, none, none, none⟩ = 21 / 2 ∧
    claimRenderedHeight ⟨1, .null, .null, some 0, some 10, none, none, none⟩ = 5 ∧
    renderedHeight ⟨1, .null, .null, some 0, some 10, none, none, none⟩
      ≠ claimRenderedHeight ⟨1, .null, .null, some 0, some 10, none, none, none⟩ := by
  have h1 : renderedHeight ⟨1, .null, .null, some 0, some 10, none, none, none⟩ = 21 / 2 := by
    norm_num [renderedHeight, jsRawHeight, floorsFallbackHeight, max_def]
  have h2 : claimRenderedHeight ⟨1, .null, .null, some 0, some 10, none, none, none⟩ = 5 := by
    norm_num [claimRenderedHeight, claimRawHeight, max_def]
  refine ⟨h1, h2, ?_⟩
  rw [h1, h2]
  norm_num

/-- C10 amended: the rendered extrusion height is max(0.3 times h, 5), hence
always at least 5 and strictly positive, where h is the height field when it
is present and non-zero, otherwise floors times 3.5 when floors is present and
non-zero, otherwise 30; in particular a building with both fields null renders
at height 9. -/
theorem C10_amended (b : FrontBuilding) :
    renderedHeight b = max (jsRawHeight b * (3 / 10 : ℚ)) 5 ∧
    5 ≤ renderedHeight b ∧
    0 < renderedHeight b ∧
    (b.height = none → b.floors = none → renderedHeight b = 9) := by
  refine ⟨rfl, le_max_right _ _,
    lt_of_lt_of_le (by norm_num) (le_max_right _ _), ?_⟩
  intro h1 h2
  simp only [renderedHeight, jsRawHeight, floorsFallbackHeight, h1, h2]
  norm_num [max_def]

/-- Witness for C10 amended at a building with both height and floors null. -/
theorem C10_amended_witness :
    (⟨3, .null, .null, none, none, none, none, none⟩ : FrontBuilding).height = none ∧
    (⟨3, .null, .null, none, none, none, none, none⟩ : FrontBuilding).floors = none ∧
    renderedHeight ⟨3, .null, .null, none, none, none, none, none⟩ = 9 ∧
    5 ≤ renderedHeight ⟨3, .null, .null, none, none, none, none, none⟩ := by
  refine ⟨rfl, rfl, ?_, ?_⟩
  · exact (C10_amended ⟨3, .null, .null, none, none, none, none, none⟩).2.2.2 rfl rfl
  · exact (C10_amended ⟨3, .null, .null, none, none, none, none, none⟩).2.1
